import Mathlib

/-!
Verification of the tray/window lifecycle controller of EndfieldGachaHelper
(`src/apps/desktop/src-tauri/src/main.rs`).

Modelling notes.  All coordinates in the source are `i32`/`u32` values cast to
`f64`; every arithmetic operation performed on them (additions, subtractions,
and the constant division `236.0 / 2.0 = 118.0`) is exact on integers of this
magnitude in `f64`, so the embedding uses `Int` and is bit-for-bit faithful.
Window-system side effects (set size/position, show, hide, focus, event
emission, close prevention, the delayed process exit) are embedded as an
explicit action trace returned alongside the successor state.
-/

namespace EFGH

/-- Display bounds: a monitor rectangle `{origin: (x, y), size: (w, h)}` in
logical screen coordinates, as read from `monitor.position()` and
`monitor.size()` in `show_tray_menu`. -/
structure Bounds where
  x : Int
  y : Int
  w : Int
  h : Int
deriving DecidableEq, Repr

/-- Menu width constant `MENU_WIDTH: f64 = 236.0` from `show_tray_menu`. -/
def MENU_WIDTH : Int := 236

/-- Menu height constant `MENU_HEIGHT: f64 = 244.0` from `show_tray_menu`. -/
def MENU_HEIGHT : Int := 244

/-- Margin constant `MARGIN: f64 = 8.0` from `show_tray_menu`. -/
def MARGIN : Int := 8

/-- The half-open containment test from the monitor loop in `show_tray_menu`:
`(x as f64) >= mon_x && (x as f64) < mon_x + mon_w && (y as f64) >= mon_y
&& (y as f64) < mon_y + mon_h`. -/
def containsPoint (b : Bounds) (x y : Int) : Bool :=
  decide (b.x ≤ x) && decide (x < b.x + b.w) &&
  decide (b.y ≤ y) && decide (y < b.y + b.h)

/-- The default screen geometry in `show_tray_menu`: `screen_width = 1920`,
`screen_height = 1080`, `screen_x = 0`, `screen_y = 0`, used when no monitor
contains the click position (or the monitor query fails). -/
def fallbackBounds : Bounds := ⟨0, 0, 1920, 1080⟩

/-- The monitor-resolution loop of `show_tray_menu`: walk the monitors in
order, take the first whose half-open rectangle contains the point (the
source `break`s there), otherwise keep the fallback defaults.  A failing
`available_monitors()` call behaves like the empty list.  Total: always
returns a rectangle. -/
def resolveMonitor (x y : Int) : List Bounds → Bounds
  | [] => fallbackBounds
  | m :: rest => if containsPoint m x y then m else resolveMonitor x y rest

/-- The placement computation of `show_tray_menu`: default candidate centers
the popup on the trigger `x` and puts it above the trigger offset by the
margin, then four clamping passes in source order (right clamp, left clamp,
flip below when above `top + margin`, bottom clamp).  `MENU_WIDTH / 2` is the
source's `MENU_WIDTH / 2.0 = 118.0`, exact. -/
def placeMenu (x y : Int) (b : Bounds) : Int × Int :=
  let mx0 := x - MENU_WIDTH / 2
  let my0 := y - MENU_HEIGHT - MARGIN
  let mx1 := if mx0 + MENU_WIDTH > b.x + b.w - MARGIN
    then b.x + b.w - MENU_WIDTH - MARGIN else mx0
  let mx2 := if mx1 < b.x + MARGIN then b.x + MARGIN else mx1
  let my1 := if my0 < b.y + MARGIN then y + MARGIN else my0
  let my2 := if my1 + MENU_HEIGHT > b.y + b.h - MARGIN
    then b.y + b.h - MENU_HEIGHT - MARGIN else my1
  (mx2, my2)

/-- The two window labels the program ever creates: `"main"` (from the Tauri
configuration) and `"tray-menu"` (from `ensure_tray_menu_window`). -/
inductive Label where
  | main
  | trayMenu
deriving DecidableEq, Repr

/-- Names of the events the controller emits to window content. -/
inductive EventName where
  | trayMenuPosition
  | navigate
  | trayQuit
  | trayToggleSync
  | traySetAutoSync
  | windowCloseRequested
deriving DecidableEq, Repr

/-- Event payloads: `()` for unit events, `TrayMenuPosition { x, y }` for the
popup position event, a boolean for `tray-set-auto-sync`. -/
inductive Payload where
  | unitP
  | posP (x y : Int)
  | boolP (b : Bool)
deriving DecidableEq, Repr

/-- Observable window-system effects of the controller, recorded as a trace. -/
inductive Action where
  | setSize (w h : Int)
  | setPosition (x y : Int)
  | showWindow
  | setFocus
  | hideWindow
  | emitEvent (target : Label) (name : EventName) (payload : Payload)
  | preventClose
  | scheduleExit (delayMs : Nat)
deriving DecidableEq, Repr

/-- State of the popup window handle, with the builder-settable flags used by
`ensure_tray_menu_window` and the mutable visibility/position/focus. -/
structure TrayWindow where
  visible : Bool
  decorations : Bool
  resizable : Bool
  alwaysOnTop : Bool
  skipTaskbar : Bool
  transparent : Bool
  shadow : Bool
  focused : Bool
  width : Int
  height : Int
  position : Option (Int × Int)
deriving DecidableEq, Repr

/-- The window built by `ensure_tray_menu_window`: `inner_size(236.0, 244.0)`,
`decorations(false)`, `resizable(false)`, `always_on_top(true)`,
`skip_taskbar(true)`, `transparent(true)`, `shadow(false)`, `visible(false)`,
`focused(false)`. -/
def initialTrayWindow : TrayWindow where
  visible := false
  decorations := false
  resizable := false
  alwaysOnTop := true
  skipTaskbar := true
  transparent := true
  shadow := false
  focused := false
  width := 236
  height := 244
  position := none

/-- Process-wide window registry state.  The registry is keyed by label, so
`trayMenu : Option TrayWindow` holds the at-most-one popup handle;
`mainExists` tracks whether the `"main"` window handle is alive;
`trayBuilds` counts how many times a popup window has been constructed. -/
structure AppState where
  trayMenu : Option TrayWindow
  mainExists : Bool
  trayBuilds : Nat
deriving DecidableEq, Repr

/-- The state at process start: main window created by the Tauri config, the
popup not yet built. -/
def initialAppState : AppState where
  trayMenu := none
  mainExists := true
  trayBuilds := 0

/-- `ensure_tray_menu_window`: return early when `get_webview_window` finds
the `"tray-menu"` handle, otherwise build it hidden with the flags of
`initialTrayWindow`. -/
def ensure_tray_menu_window (st : AppState) : AppState :=
  match st.trayMenu with
  | some _ => st
  | none =>
    { st with trayMenu := some initialTrayWindow, trayBuilds := st.trayBuilds + 1 }

/-- `hide_tray_menu`: hide the popup when its handle exists, otherwise do
nothing.  Never fails. -/
def hide_tray_menu (st : AppState) : AppState × List Action :=
  match st.trayMenu with
  | none => (st, [])
  | some w => ({ st with trayMenu := some { w with visible := false } }, [.hideWindow])

/-- `show_tray_menu`: ensure the window exists, resolve the monitor, compute
the clamped placement, then toggle — if the window reports visible, hide it
and return; otherwise set size, set position, show, focus, and emit
`tray-menu-position` with the RAW trigger point `{ x, y }`. -/
def show_tray_menu (st : AppState) (monitors : List Bounds) (x y : Int) :
    AppState × List Action :=
  let st1 := ensure_tray_menu_window st
  let b := resolveMonitor x y monitors
  let p := placeMenu x y b
  match st1.trayMenu with
  | none => (st1, [])
  | some w =>
    if w.visible then
      ({ st1 with trayMenu := some { w with visible := false } }, [.hideWindow])
    else
      ({ st1 with trayMenu := some { w with
          visible := true, focused := true,
          width := MENU_WIDTH, height := MENU_HEIGHT, position := some p } },
       [.setSize MENU_WIDTH MENU_HEIGHT, .setPosition p.1 p.2,
        .showWindow, .setFocus,
        .emitEvent .trayMenu .trayMenuPosition (.posP x y)])

/-- `quit_app`: emit `tray-quit` to the main window when its handle exists,
hide the popup, then spawn a thread that sleeps 100 ms and calls
`std::process::exit(0)` — embedded as a `scheduleExit 100` action placed
after the emit and hide effects. -/
def quit_app (st : AppState) : AppState × List Action :=
  let emits : List Action :=
    if st.mainExists then [.emitEvent .main .trayQuit .unitP] else []
  let r := hide_tray_menu st
  (r.1, emits ++ r.2 ++ [.scheduleExit 100])

/-- Window events delivered to the `on_window_event` handler in `main`. -/
inductive WinEvent where
  | closeRequested
  | focusGained
  | focusLost
  | other
deriving DecidableEq, Repr

/-- The `on_window_event` handler in `main`: on `CloseRequested` for the
`"main"` window call `api.prevent_close()` and emit `window-close-requested`;
for the tray-menu window do nothing (source comment: allow the normal close).
On focus loss of the tray-menu window, hide it. -/
def on_window_event (st : AppState) (l : Label) (ev : WinEvent) :
    AppState × List Action :=
  match ev with
  | .closeRequested =>
    if l = Label.main then
      (st, [.preventClose, .emitEvent .main .windowCloseRequested .unitP])
    else (st, [])
  | .focusLost =>
    if l = Label.trayMenu then hide_tray_menu st else (st, [])
  | .focusGained => (st, [])
  | .other => (st, [])

/-- Removing a window handle from the registry (the windowing runtime's
default outcome of an unprevented close request). -/
def destroyWindow (st : AppState) (l : Label) : AppState :=
  match l with
  | .main => { st with mainExists := false }
  | .trayMenu => { st with trayMenu := none }

/-- Delivery of a `CloseRequested` window event: run the handler; when it did
not call `prevent_close`, the runtime proceeds with the default close and the
window is destroyed. -/
def deliverCloseRequested (st : AppState) (l : Label) : AppState × List Action :=
  let r := on_window_event st l .closeRequested
  if Action.preventClose ∈ r.2 then r else (destroyWindow r.1 l, r.2)

/-- The operations that can touch the popup handle: the ensure/show/hide
lifecycle calls, the quit choreography, and window-event deliveries. -/
inductive Op where
  | ensureOp
  | showAt (monitors : List Bounds) (x y : Int)
  | hideOp
  | quitOp
  | winEvent (l : Label) (ev : WinEvent)
deriving DecidableEq, Repr

/-- Apply one operation to the registry state, yielding the successor state
and the trace of window-system effects.  A `closeRequested` window event goes
through full delivery (handler plus the runtime's default close when the
handler did not prevent it); other window events only run the handler. -/
def applyOp : Op → AppState → AppState × List Action
  | .ensureOp, st => (ensure_tray_menu_window st, [])
  | .showAt ms x y, st => show_tray_menu st ms x y
  | .hideOp, st => hide_tray_menu st
  | .quitOp, st => quit_app st
  | .winEvent l .closeRequested, st => deliverCloseRequested st l
  | .winEvent l ev, st => on_window_event st l ev

/-- A filesystem path, as a list of components; `PathBuf::join` appends a
component and `Path::parent` drops the last one (none when empty). -/
structure FsPath where
  comps : List String
deriving DecidableEq, Repr

/-- `PathBuf::join` with a single component. -/
def FsPath.join (p : FsPath) (s : String) : FsPath := ⟨p.comps ++ [s]⟩

/-- `Path::parent`, returning `none` when there is no parent. -/
def FsPath.parentDir (p : FsPath) : Option FsPath :=
  match p.comps with
  | [] => none
  | _ => some ⟨p.comps.dropLast⟩

/-- The fallible environment operations used by `prepare_db_path`:
`std::env::current_exe()`, `Path::exists`, `std::fs::create_dir_all`,
`app.path().app_config_dir()`, `std::fs::copy` (returning the byte count),
and `Path::to_str` (UTF-8 encodability). -/
structure FsEnv where
  currentExe : Except String FsPath
  pathExists : FsPath → Bool
  createDirAll : FsPath → Except String Unit
  appConfigDir : Except String FsPath
  copyFile : FsPath → FsPath → Except String Nat
  pathToStr : FsPath → Option String

/-- Whether an `Except` result is a success. -/
def exceptOk {ε α : Type} : Except ε α → Bool
  | .ok _ => true
  | .error _ => false

/-- `prepare_db_path`: resolve the exe directory, ensure `userdata/` exists,
attempt the one-time legacy-database copy when the new database is absent —
discarding the copy's result on BOTH branches (the source only logs it) —
then return the `sqlite:` connection string for `userdata/efgacha.db`.
Errors are produced exactly where the source uses `?`/`ok_or_else`. -/
def prepare_db_path (env : FsEnv) : Except String String :=
  match env.currentExe with
  | .error e => .error ("获取 exe 路径失败: " ++ e)
  | .ok exePath =>
    match exePath.parentDir with
    | none => .error "无法获取 exe 所在目录"
    | some exeDir =>
      let userdataDir := exeDir.join "userdata"
      let newDb := userdataDir.join "efgacha.db"
      let created : Except String Unit :=
        if env.pathExists userdataDir then .ok () else env.createDirAll userdataDir
      match created with
      | .error e => .error ("创建 userdata 目录失败: " ++ e)
      | .ok _ =>
        let _migration : Unit :=
          if env.pathExists newDb then ()
          else
            match env.appConfigDir with
            | .error _ => ()
            | .ok oldDir =>
              if env.pathExists (oldDir.join "efgacha.db") then
                match env.copyFile (oldDir.join "efgacha.db") newDb with
                | .ok _ => ()
                | .error _ => ()
              else ()
        match env.pathToStr newDb with
        | none => .error "数据库路径编码无效"
        | some s => .ok ("sqlite:" ++ s)

/-- The non-migration steps of `prepare_db_path` that can fail: exe path
resolution, parent directory, `userdata` creation (when needed), and UTF-8
encoding of the database path.  Success of all four. -/
def earlyStepsOk (env : FsEnv) : Bool :=
  match env.currentExe with
  | .error _ => false
  | .ok exePath =>
    match exePath.parentDir with
    | none => false
    | some exeDir =>
      let userdataDir := exeDir.join "userdata"
      (env.pathExists userdataDir || exceptOk (env.createDirAll userdataDir)) &&
      (env.pathToStr (userdataDir.join "efgacha.db")).isSome

/-! Theorems. -/

/-- Claim C1, as stated, is false: with a display of ample size (1920x1080 at
the origin, so `popup_size + 2*margin ≤ size` holds) and trigger point
`(100, -300)` lying above the display, the computed placement has its top
edge at `-292`, above the display's top, so the 236x244 popup rectangle is
not contained in the bounds. -/
theorem C1_counterexample :
    MENU_WIDTH + 2 * MARGIN ≤ (Bounds.mk 0 0 1920 1080).w ∧
    MENU_HEIGHT + 2 * MARGIN ≤ (Bounds.mk 0 0 1920 1080).h ∧
    (placeMenu 100 (-300) (Bounds.mk 0 0 1920 1080)).2 <
      (Bounds.mk 0 0 1920 1080).y := by
  decide

/-- Claim C1 (amended): for every trigger point `p` whose `y` is at least
`b.top - margin` and every display bounds `b` with
`popup_size + 2*margin ≤ b.size` (popup 236x244, margin 8), the placement
computed by the four clamping passes yields a top-left such that the full
236x244 popup rectangle is contained in `b`. -/
theorem C1_amended_contained (x y : Int) (b : Bounds)
    (hw : MENU_WIDTH + 2 * MARGIN ≤ b.w) (hh : MENU_HEIGHT + 2 * MARGIN ≤ b.h)
    (hy : b.y - MARGIN ≤ y) :
    b.x ≤ (placeMenu x y b).1 ∧ (placeMenu x y b).1 + MENU_WIDTH ≤ b.x + b.w ∧
    b.y ≤ (placeMenu x y b).2 ∧ (placeMenu x y b).2 + MENU_HEIGHT ≤ b.y + b.h := by
  simp only [placeMenu, MENU_WIDTH, MENU_HEIGHT, MARGIN] at *
  split_ifs <;> omega

/-- Witness for `C1_amended_contained` at the tray-click scenario input. -/
theorem C1_amended_witness :
    (0 : Int) ≤ (placeMenu 1900 10 (Bounds.mk 0 0 1920 1080)).1 ∧
    (placeMenu 1900 10 (Bounds.mk 0 0 1920 1080)).1 + MENU_WIDTH ≤ 0 + 1920 ∧
    (0 : Int) ≤ (placeMenu 1900 10 (Bounds.mk 0 0 1920 1080)).2 ∧
    (placeMenu 1900 10 (Bounds.mk 0 0 1920 1080)).2 + MENU_HEIGHT ≤ 0 + 1080 :=
  C1_amended_contained 1900 10 (Bounds.mk 0 0 1920 1080)
    (by decide) (by decide) (by decide)

/-- Claim C2: trigger `(1900, 10)`, single 1920x1080 display at the origin —
the monitor resolves to that display, the placement is `(1676, 18)`, the
right edge sits at `1676 + 236 = 1912`, and the vertical coordinate is
flipped below the trigger (`18 = 10 + 8`) because `10 - 244 - 8 < 0`. -/
theorem C2_scenario :
    resolveMonitor 1900 10 [Bounds.mk 0 0 1920 1080] = Bounds.mk 0 0 1920 1080 ∧
    placeMenu 1900 10 (Bounds.mk 0 0 1920 1080) = (1676, 18) ∧
    (1676 : Int) + MENU_WIDTH = 1912 ∧
    (18 : Int) = 10 + MARGIN ∧
    (10 : Int) - MENU_HEIGHT - MARGIN < 0 := by
  decide

/-- Claim C3: monitor resolution returns the bounds of the first monitor in
the sequence whose half-open rectangle contains the point, and the fallback
1920x1080 bounds at the origin when no monitor contains it.  It is a total
function, so it never fails. -/
theorem C3_resolve_first_or_fallback (x y : Int) :
    (∀ (pre : List Bounds) (m : Bounds) (post : List Bounds),
      containsPoint m x y = true →
      (∀ m' ∈ pre, containsPoint m' x y = false) →
      resolveMonitor x y (pre ++ m :: post) = m) ∧
    (∀ ms : List Bounds, (∀ m ∈ ms, containsPoint m x y = false) →
      resolveMonitor x y ms = fallbackBounds) := by
  constructor
  · intro pre m post hm hpre
    induction pre with
    | nil => simp [resolveMonitor, hm]
    | cons a t ih =>
      have ha : containsPoint a x y = false := hpre a (by simp)
      simpa [resolveMonitor, ha] using
        ih (fun m' hm' => hpre m' (List.mem_cons_of_mem a hm'))
  · intro ms hms
    induction ms with
    | nil => rfl
    | cons a t ih =>
      have ha : containsPoint a x y = false := hms a (by simp)
      simpa [resolveMonitor, ha] using
        ih (fun m' hm' => hms m' (List.mem_cons_of_mem a hm'))

/-- Witness for `C3_resolve_first_or_fallback`: a point inside the second of
two monitors resolves to that monitor, and a point inside none resolves to
the fallback bounds. -/
theorem C3_witness :
    resolveMonitor 5 5
      ([Bounds.mk 100 100 10 10] ++ Bounds.mk 0 0 10 10 :: []) =
      Bounds.mk 0 0 10 10 ∧
    resolveMonitor 7 7 [Bounds.mk 100 100 10 10] = fallbackBounds :=
  ⟨(C3_resolve_first_or_fallback 5 5).1 [Bounds.mk 100 100 10 10]
      (Bounds.mk 0 0 10 10) [] (by decide) (by decide),
   (C3_resolve_first_or_fallback 7 7).2 [Bounds.mk 100 100 10 10] (by decide)⟩

/-- Ensuring twice is the same as ensuring once. -/
theorem ensure_idem (st : AppState) :
    ensure_tray_menu_window (ensure_tray_menu_window st) =
      ensure_tray_menu_window st := by
  cases h : st.trayMenu <;> simp [ensure_tray_menu_window, h]

/-- Claim C4: starting from an existing, hidden popup, `show_at(p)` twice
toggles — the first call leaves it visible, the second call finds it visible,
hides it, and performs nothing else (its whole effect trace is the single
hide; no repositioning, no show). -/
theorem C4_toggle (st : AppState) (w : TrayWindow) (ms : List Bounds) (x y : Int)
    (h1 : st.trayMenu = some w) (h2 : w.visible = false) :
    (∃ w1, (show_tray_menu st ms x y).1.trayMenu = some w1 ∧ w1.visible = true) ∧
    (∃ w2, (show_tray_menu (show_tray_menu st ms x y).1 ms x y).1.trayMenu =
      some w2 ∧ w2.visible = false) ∧
    (show_tray_menu (show_tray_menu st ms x y).1 ms x y).2 =
      [Action.hideWindow] := by
  obtain ⟨tm, me, tb⟩ := st
  simp only at h1
  subst h1
  simp [show_tray_menu, ensure_tray_menu_window, h2]

/-- Witness for `C4_toggle` at the prewarmed initial state. -/
theorem C4_witness :
    (∃ w1, (show_tray_menu (ensure_tray_menu_window initialAppState) [] 0 0).1.trayMenu
      = some w1 ∧ w1.visible = true) ∧
    (∃ w2, (show_tray_menu
      (show_tray_menu (ensure_tray_menu_window initialAppState) [] 0 0).1 [] 0 0).1.trayMenu
      = some w2 ∧ w2.visible = false) ∧
    (show_tray_menu
      (show_tray_menu (ensure_tray_menu_window initialAppState) [] 0 0).1 [] 0 0).2 =
      [Action.hideWindow] :=
  C4_toggle (ensure_tray_menu_window initialAppState) initialTrayWindow [] 0 0 rfl rfl

/-- Claim C5: `ensure()` is idempotent — `N ≥ 1` calls equal one call, at most
one construction happens, an existing handle makes the call a no-op, and a
fresh construction yields the hidden, undecorated, always-on-top,
taskbar-skipping, transparent, shadowless, unfocused window. -/
theorem C5_ensure_idempotent (st : AppState) (n : Nat) (h : 1 ≤ n) :
    Nat.iterate ensure_tray_menu_window n st = ensure_tray_menu_window st ∧
    (Nat.iterate ensure_tray_menu_window n st).trayBuilds ≤ st.trayBuilds + 1 ∧
    (st.trayMenu.isSome = true → ensure_tray_menu_window st = st) ∧
    (st.trayMenu = none →
      (ensure_tray_menu_window st).trayMenu = some initialTrayWindow ∧
      (ensure_tray_menu_window st).trayBuilds = st.trayBuilds + 1 ∧
      initialTrayWindow.visible = false ∧ initialTrayWindow.decorations = false ∧
      initialTrayWindow.alwaysOnTop = true ∧ initialTrayWindow.skipTaskbar = true ∧
      initialTrayWindow.transparent = true ∧ initialTrayWindow.shadow = false ∧
      initialTrayWindow.focused = false) := by
  have key : ∀ m, Nat.iterate ensure_tray_menu_window m (ensure_tray_menu_window st)
      = ensure_tray_menu_window st := by
    intro m
    induction m with
    | zero => rfl
    | succ k ih => rw [Function.iterate_succ_apply, ensure_idem]; exact ih
  have hone : Nat.iterate ensure_tray_menu_window n st = ensure_tray_menu_window st := by
    obtain ⟨k, rfl⟩ : ∃ k, n = k + 1 := ⟨n - 1, by omega⟩
    rw [Function.iterate_succ_apply]
    exact key k
  refine ⟨hone, ?_, ?_, ?_⟩
  · rw [hone]
    cases hm : st.trayMenu <;> simp [ensure_tray_menu_window, hm]
  · intro hs
    cases hm : st.trayMenu with
    | none => rw [hm] at hs; simp at hs
    | some w => simp [ensure_tray_menu_window, hm]
  · intro hm
    refine ⟨?_, ?_, rfl, rfl, rfl, rfl, rfl, rfl, rfl⟩ <;>
      simp [ensure_tray_menu_window, hm]

/-- Witness for `C5_ensure_idempotent`: three calls from the initial state. -/
theorem C5_witness :
    Nat.iterate ensure_tray_menu_window 3 initialAppState =
      ensure_tray_menu_window initialAppState ∧
    (Nat.iterate ensure_tray_menu_window 3 initialAppState).trayBuilds ≤
      initialAppState.trayBuilds + 1 ∧
    (initialAppState.trayMenu.isSome = true →
      ensure_tray_menu_window initialAppState = initialAppState) ∧
    (initialAppState.trayMenu = none →
      (ensure_tray_menu_window initialAppState).trayMenu = some initialTrayWindow ∧
      (ensure_tray_menu_window initialAppState).trayBuilds =
        initialAppState.trayBuilds + 1 ∧
      initialTrayWindow.visible = false ∧ initialTrayWindow.decorations = false ∧
      initialTrayWindow.alwaysOnTop = true ∧ initialTrayWindow.skipTaskbar = true ∧
      initialTrayWindow.transparent = true ∧ initialTrayWindow.shadow = false ∧
      initialTrayWindow.focused = false) :=
  C5_ensure_idempotent initialAppState 3 (by decide)

/-- Claim C9: when `show_at` transitions the popup from hidden to visible,
its effect trace is exactly: set size 236x244, set the computed clamped
position, show, focus, and then emit `tray-menu-position` carrying the RAW
trigger point `{ x, y }` — the emit comes last and its payload is the
unclamped input point. -/
theorem C9_emits_raw_point (st : AppState) (w : TrayWindow) (ms : List Bounds)
    (x y : Int) (h1 : st.trayMenu = some w) (h2 : w.visible = false) :
    (show_tray_menu st ms x y).2 =
      [Action.setSize MENU_WIDTH MENU_HEIGHT,
       Action.setPosition (placeMenu x y (resolveMonitor x y ms)).1
         (placeMenu x y (resolveMonitor x y ms)).2,
       Action.showWindow, Action.setFocus,
       Action.emitEvent Label.trayMenu EventName.trayMenuPosition
         (Payload.posP x y)] := by
  obtain ⟨tm, me, tb⟩ := st
  simp only at h1
  subst h1
  simp [show_tray_menu, ensure_tray_menu_window, h2]

/-- Witness for `C9_emits_raw_point` at the tray-click scenario input, where
the clamped position `(1676, 18)` differs from the raw point `(1900, 10)`
carried by the emitted payload. -/
theorem C9_witness :
    (show_tray_menu (ensure_tray_menu_window initialAppState)
      [Bounds.mk 0 0 1920 1080] 1900 10).2 =
      [Action.setSize MENU_WIDTH MENU_HEIGHT,
       Action.setPosition
         (placeMenu 1900 10 (resolveMonitor 1900 10 [Bounds.mk 0 0 1920 1080])).1
         (placeMenu 1900 10 (resolveMonitor 1900 10 [Bounds.mk 0 0 1920 1080])).2,
       Action.showWindow, Action.setFocus,
       Action.emitEvent Label.trayMenu EventName.trayMenuPosition
         (Payload.posP 1900 10)] :=
  C9_emits_raw_point (ensure_tray_menu_window initialAppState) initialTrayWindow
    [Bounds.mk 0 0 1920 1080] 1900 10 rfl rfl

/-- Claim C6, as stated, is false: a close request delivered against the
popup window destroys it.  The `on_window_event` handler calls
`prevent_close` only for the `"main"` label and deliberately lets the
tray-menu window close normally (source comment at the handler), so after
creating the popup and delivering `CloseRequested` to it, the handle is
gone. -/
theorem C6_counterexample :
    (applyOp (Op.winEvent Label.trayMenu WinEvent.closeRequested)
      (ensure_tray_menu_window initialAppState)).1.trayMenu = none ∧
    (ensure_tray_menu_window initialAppState).trayMenu.isSome = true := by
  decide

/-- Claim C6 (amended): at most one popup handle exists at any time (the
registry holds at most one window under the fixed label), and every
operation other than a close request delivered against the popup window
preserves the handle — it only hides, never destroys, and never rebuilds an
existing handle; the close request against the popup is left unprevented by
the handler and destroys it. -/
theorem C6_amended_preserved (st : AppState) (op : Op)
    (h : op ≠ Op.winEvent Label.trayMenu WinEvent.closeRequested)
    (hsome : st.trayMenu.isSome = true) :
    (applyOp op st).1.trayMenu.isSome = true ∧
    (applyOp op st).1.trayBuilds = st.trayBuilds := by
  obtain ⟨w, hm⟩ := Option.isSome_iff_exists.mp hsome
  cases op with
  | ensureOp => simp [applyOp, ensure_tray_menu_window, hm]
  | showAt ms x y =>
    cases hv : w.visible <;>
      simp [applyOp, show_tray_menu, ensure_tray_menu_window, hm, hv]
  | hideOp => simp [applyOp, hide_tray_menu, hm]
  | quitOp => simp [applyOp, quit_app, hide_tray_menu, hm]
  | winEvent l ev =>
    cases ev with
    | closeRequested =>
      cases l with
      | main => simp [applyOp, deliverCloseRequested, on_window_event, hm]
      | trayMenu => exact absurd rfl h
    | focusGained => simp [applyOp, on_window_event, hm]
    | focusLost =>
      cases l <;> simp [applyOp, on_window_event, hide_tray_menu, hm]
    | other => simp [applyOp, on_window_event, hm]

/-- Witness for `C6_amended_preserved`: hiding a prewarmed popup keeps the
handle alive and builds nothing. -/
theorem C6_witness :
    (applyOp Op.hideOp (ensure_tray_menu_window initialAppState)).1.trayMenu.isSome
      = true ∧
    (applyOp Op.hideOp (ensure_tray_menu_window initialAppState)).1.trayBuilds =
      (ensure_tray_menu_window initialAppState).trayBuilds :=
  C6_amended_preserved (ensure_tray_menu_window initialAppState) Op.hideOp
    (by decide) rfl

/-- Claim C7: the quit command's effect trace is the `tray-quit` emission to
the main window, then the popup hide effects, then — last — the scheduled
process exit; the popup ends hidden, and the only exit in the trace carries
the fixed delay 100 ms, which is non-zero. -/
theorem C7_quit_choreography (st : AppState) (h : st.mainExists = true) :
    (quit_app st).2 =
      Action.emitEvent Label.main EventName.trayQuit Payload.unitP ::
        ((hide_tray_menu st).2 ++ [Action.scheduleExit 100]) ∧
    (∀ w, (quit_app st).1.trayMenu = some w → w.visible = false) ∧
    (∀ d, Action.scheduleExit d ∈ (quit_app st).2 → d = 100 ∧ 0 < d) ∧
    (quit_app st).2.getLast? = some (Action.scheduleExit 100) := by
  cases hm : st.trayMenu <;>
    simp [quit_app, hide_tray_menu, h, hm]

/-- Witness for `C7_quit_choreography` at the prewarmed initial state. -/
theorem C7_witness :
    (quit_app (ensure_tray_menu_window initialAppState)).2 =
      Action.emitEvent Label.main EventName.trayQuit Payload.unitP ::
        ((hide_tray_menu (ensure_tray_menu_window initialAppState)).2 ++
          [Action.scheduleExit 100]) ∧
    (∀ w, (quit_app (ensure_tray_menu_window initialAppState)).1.trayMenu = some w →
      w.visible = false) ∧
    (∀ d, Action.scheduleExit d ∈
      (quit_app (ensure_tray_menu_window initialAppState)).2 → d = 100 ∧ 0 < d) ∧
    (quit_app (ensure_tray_menu_window initialAppState)).2.getLast? =
      some (Action.scheduleExit 100) :=
  C7_quit_choreography (ensure_tray_menu_window initialAppState) rfl

/-- Claim C8: delivering a close request against the main window leaves the
state untouched (the window stays alive: the handler calls `prevent_close`),
and exactly one `window-close-requested` notification is emitted per
delivery. -/
theorem C8_close_main_suppressed (st : AppState) (h : st.mainExists = true) :
    (deliverCloseRequested st Label.main).1 = st ∧
    (deliverCloseRequested st Label.main).1.mainExists = true ∧
    List.count
      (Action.emitEvent Label.main EventName.windowCloseRequested Payload.unitP)
      (deliverCloseRequested st Label.main).2 = 1 ∧
    Action.preventClose ∈ (deliverCloseRequested st Label.main).2 := by
  refine ⟨?_, ?_, ?_, ?_⟩ <;>
    simp [deliverCloseRequested, on_window_event, h, List.count_cons]

/-- Witness for `C8_close_main_suppressed` at the initial state. -/
theorem C8_witness :
    (deliverCloseRequested initialAppState Label.main).1 = initialAppState ∧
    (deliverCloseRequested initialAppState Label.main).1.mainExists = true ∧
    List.count
      (Action.emitEvent Label.main EventName.windowCloseRequested Payload.unitP)
      (deliverCloseRequested initialAppState Label.main).2 = 1 ∧
    Action.preventClose ∈ (deliverCloseRequested initialAppState Label.main).2 :=
  C8_close_main_suppressed initialAppState rfl

/-- Claim C10: the result of `prepare_db_path` does not depend on the
migration copy at all — replacing the copy operation by any other (including
any failing one) yields the same result, so a copy failure is swallowed; the
result is `Ok` exactly when exe-path resolution, the parent directory,
`userdata` creation (when needed), and UTF-8 path encoding all succeed; and
every `Ok` result is a `sqlite:` connection string. -/
theorem C10_migration_swallowed (env : FsEnv)
    (f : FsPath → FsPath → Except String Nat) :
    prepare_db_path { env with copyFile := f } = prepare_db_path env ∧
    exceptOk (prepare_db_path env) = earlyStepsOk env ∧
    (∀ s, prepare_db_path env = Except.ok s → ∃ t, s = "sqlite:" ++ t) := by
  refine ⟨rfl, ?_, ?_⟩
  · cases h1 : env.currentExe with
    | error e => simp [prepare_db_path, earlyStepsOk, exceptOk, h1]
    | ok p =>
      cases h2 : p.parentDir with
      | none => simp [prepare_db_path, earlyStepsOk, exceptOk, h1, h2]
      | some d =>
        cases h3 : env.pathExists (d.join "userdata") with
        | true =>
          cases h5 : env.pathToStr ((d.join "userdata").join "efgacha.db") <;>
            simp [prepare_db_path, earlyStepsOk, exceptOk, h1, h2, h3, h5]
        | false =>
          cases h4 : env.createDirAll (d.join "userdata") with
          | error e =>
            simp [prepare_db_path, earlyStepsOk, exceptOk, h1, h2, h3, h4]
          | ok u =>
            cases h5 : env.pathToStr ((d.join "userdata").join "efgacha.db") <;>
              simp [prepare_db_path, earlyStepsOk, exceptOk, h1, h2, h3, h4, h5]
  · intro s hs
    cases h1 : env.currentExe with
    | error e => simp [prepare_db_path, h1] at hs
    | ok p =>
      cases h2 : p.parentDir with
      | none => simp [prepare_db_path, h1, h2] at hs
      | some d =>
        cases h3 : env.pathExists (d.join "userdata") with
        | true =>
          cases h5 : env.pathToStr ((d.join "userdata").join "efgacha.db") with
          | none => simp [prepare_db_path, h1, h2, h3, h5] at hs
          | some t =>
            simp [prepare_db_path, h1, h2, h3, h5] at hs
            exact ⟨t, hs.symm⟩
        | false =>
          cases h4 : env.createDirAll (d.join "userdata") with
          | error e => simp [prepare_db_path, h1, h2, h3, h4] at hs
          | ok u =>
            cases h5 : env.pathToStr ((d.join "userdata").join "efgacha.db") with
            | none => simp [prepare_db_path, h1, h2, h3, h4, h5] at hs
            | some t =>
              simp [prepare_db_path, h1, h2, h3, h4, h5] at hs
              exact ⟨t, hs.symm⟩

/-- A concrete environment in which the early steps succeed and the legacy
copy fails. -/
def envA : FsEnv where
  currentExe := Except.ok ⟨["root", "app.exe"]⟩
  pathExists := fun p => decide (p.comps.length = 2)
  createDirAll := fun _ => Except.ok ()
  appConfigDir := Except.ok ⟨["root", "cfg"]⟩
  copyFile := fun _ _ => Except.error "copy failed"
  pathToStr := fun _ => some "root/userdata/efgacha.db"

/-- Witness for `C10_migration_swallowed` at the concrete environment. -/
theorem C10_witness :
    prepare_db_path { envA with copyFile := fun _ _ => Except.ok 0 } =
      prepare_db_path envA ∧
    exceptOk (prepare_db_path envA) = earlyStepsOk envA ∧
    (∀ s, prepare_db_path envA = Except.ok s → ∃ t, s = "sqlite:" ++ t) :=
  C10_migration_swallowed envA (fun _ _ => Except.ok 0)

end EFGH
